import Mathlib

/-!
Shallow embedding of the ingestion and validation pipeline of the
data-coll-server repository (src/uploader/views.py, src/uploader/models.py).

JSON payloads decoded by json.load / json.loads are modelled by `JValue`.
Numeric values are modelled by `Dec`, exact decimal numbers in canonical
form: every number the ingestion code manipulates is a decimal literal, and
the only divisions applied to them are by powers of ten (milliseconds to
seconds, fractional parts), so decimals represent the values exactly while
remaining kernel-computable.  Python exception classes relevant to the
control flow are modelled by `PyErr`.  Timezone-aware datetimes are
modelled by `AwareDatetime` (an exact epoch-second instant plus a display
offset); Asia/Kolkata is the fixed +05:30 offset over the epoch range the
code handles.
-/

namespace DataCollServer

/-- Exact decimal number man / 10 ^ exp, kept canonical: either exp = 0 or
man is not a multiple of ten, so structural equality is numeric equality. -/
structure Dec where
  man : ℤ
  exp : ℕ
deriving DecidableEq

/-- Canonical decimal with value m / 10 ^ e. -/
def canonDec : ℤ → ℕ → Dec
  | m, 0 => ⟨m, 0⟩
  | m, e + 1 => if m % 10 = 0 then canonDec (m / 10) e else ⟨m, e + 1⟩

instance : OfNat Dec n := ⟨⟨(n : ℤ), 0⟩⟩

instance : IntCast Dec := ⟨fun z => ⟨z, 0⟩⟩

instance : LE Dec := ⟨fun a b => a.man * 10 ^ b.exp ≤ b.man * 10 ^ a.exp⟩

instance : LT Dec := ⟨fun a b => a.man * 10 ^ b.exp < b.man * 10 ^ a.exp⟩

instance (a b : Dec) : Decidable (a ≤ b) :=
  inferInstanceAs (Decidable (a.man * 10 ^ b.exp ≤ b.man * 10 ^ a.exp))

instance (a b : Dec) : Decidable (a < b) :=
  inferInstanceAs (Decidable (a.man * 10 ^ b.exp < b.man * 10 ^ a.exp))

/-- Sum of two decimals. -/
def Dec.add (a b : Dec) : Dec :=
  canonDec (a.man * 10 ^ b.exp + b.man * 10 ^ a.exp) (a.exp + b.exp)

/-- Negation of a decimal (canonical when the input is). -/
def Dec.neg (a : Dec) : Dec := ⟨-a.man, a.exp⟩

/-- Difference of two decimals. -/
def Dec.sub (a b : Dec) : Dec := a.add b.neg

/-- Division of a decimal by 10 ^ k (exact). -/
def Dec.divPow10 (a : Dec) (k : ℕ) : Dec :=
  canonDec a.man (a.exp + k)

/-- Scaling of a decimal by 10 ^ e for an integer e (exact). -/
def Dec.scalePow10 (a : Dec) : ℤ → Dec
  | .ofNat k => canonDec (a.man * 10 ^ k) a.exp
  | .negSucc k => a.divPow10 (k + 1)

/-- Floor of a / n for a positive integer n. -/
def Dec.fdivBy (a : Dec) (n : ℤ) : ℤ :=
  Int.fdiv a.man (n * 10 ^ a.exp)

/-- JSON values as produced by Python json.load / json.loads: null, booleans,
numbers (exact decimals), strings, arrays, and objects (association lists;
the payloads considered here have distinct keys). -/
inductive JValue where
  | null : JValue
  | bool : Bool → JValue
  | num : Dec → JValue
  | str : String → JValue
  | arr : List JValue → JValue
  | obj : List (String × JValue) → JValue

/-- Python exception classes that drive control flow in the views:
ValueError and TypeError are caught by specific handlers, AttributeError
only by the outermost generic handler. -/
inductive PyErr where
  | valueError : PyErr
  | typeError : PyErr
  | attributeError : PyErr
deriving DecidableEq

instance {ε α : Type} [DecidableEq ε] [DecidableEq α] : DecidableEq (Except ε α) := fun a b =>
  match a, b with
  | .error e, .error f =>
    match decEq e f with
    | .isTrue h => .isTrue (h ▸ rfl)
    | .isFalse h => .isFalse fun hc => h (by cases hc; rfl)
  | .error _, .ok _ => .isFalse fun hc => by cases hc
  | .ok _, .error _ => .isFalse fun hc => by cases hc
  | .ok x, .ok y =>
    match decEq x y with
    | .isTrue h => .isTrue (h ▸ rfl)
    | .isFalse h => .isFalse fun hc => h (by cases hc; rfl)

/-- Python dict.get(k): the bound value, or None when the key is absent.
A JSON null decodes to Python None as well, so both cases yield `.null`. -/
def getKey (fields : List (String × JValue)) (k : String) : JValue :=
  (fields.lookup k).getD .null

/-- Python truthiness of a decoded JSON value: None, False, 0, empty string,
empty list and empty dict are falsy, everything else truthy. -/
def truthy : JValue → Bool
  | .null => false
  | .bool b => b
  | .num q => decide (q.man ≠ 0)
  | .str s => decide (s ≠ "")
  | .arr xs => !xs.isEmpty
  | .obj fs => !fs.isEmpty

/-- Whether a decoded value is Python None. -/
def JValue.isNull : JValue → Bool
  | .null => true
  | _ => false

/-- Whitespace characters stripped by Python numeric conversions. -/
def isSpaceChar (c : Char) : Bool :=
  c = ' ' ∨ c = '\t' ∨ c = '\n' ∨ c = '\r'

/-- Surrounding whitespace stripped from a character list. -/
def trimChars (cs : List Char) : List Char :=
  ((cs.dropWhile isSpaceChar).reverse.dropWhile isSpaceChar).reverse

/-- Value of a digit string, most significant first. -/
def digitsVal (cs : List Char) : ℕ :=
  cs.foldl (fun n c => 10 * n + (c.toNat - 48)) 0

/-- Split a character list at the first character satisfying p; the second
component is none when no such character occurs. -/
def splitAtChar (p : Char → Bool) : List Char → List Char × Option (List Char)
  | [] => ([], none)
  | c :: rest =>
    if p c then ([], some rest)
    else
      let (a, b) := splitAtChar p rest
      (c :: a, b)

/-- Mantissa of a Python float literal: digits with an optional decimal
point, at least one digit present. -/
def parseMantissa (cs : List Char) : Option Dec :=
  let (ip, fp?) := splitAtChar (fun c => c = '.') cs
  match fp? with
  | none =>
      if ip ≠ [] ∧ ip.all Char.isDigit then some (canonDec (digitsVal ip : ℤ) 0) else none
  | some fp =>
      if (ip ≠ [] ∨ fp ≠ []) ∧ ip.all Char.isDigit ∧ fp.all Char.isDigit then
        some (canonDec (digitsVal (ip ++ fp) : ℤ) fp.length)
      else none

/-- Exponent part of a float literal: optional sign then digits. -/
def parseExponent (cs : List Char) : Option ℤ :=
  let (sign, ds) : ℤ × List Char :=
    match cs with
    | '+' :: r => (1, r)
    | '-' :: r => (-1, r)
    | _ => (1, cs)
  if ds ≠ [] ∧ ds.all Char.isDigit then some (sign * (digitsVal ds : ℤ)) else none

/-- Python float(string) on finite decimal literals: optional surrounding
whitespace, optional sign, digits with optional decimal point, optional
exponent.  The non-finite literals inf and nan have no decimal value and
are outside the payloads this model covers. -/
def parseFloat (s : String) : Option Dec :=
  let cs := trimChars s.toList
  let (neg, cs1) : Bool × List Char :=
    match cs with
    | '+' :: r => (false, r)
    | '-' :: r => (true, r)
    | _ => (false, cs)
  let (mant, exp?) := splitAtChar (fun c => c = 'e' ∨ c = 'E') cs1
  match parseMantissa mant with
  | none => none
  | some m0 =>
    let m := if neg then m0.neg else m0
    match exp? with
    | none => some m
    | some ecs =>
      match parseExponent ecs with
      | none => none
      | some e => some (m.scalePow10 e)

/-- Python int(string): optional surrounding whitespace, optional sign,
digits. -/
def parseInt (s : String) : Option ℤ :=
  let cs := trimChars s.toList
  let (sign, ds) : ℤ × List Char :=
    match cs with
    | '+' :: r => (1, r)
    | '-' :: r => (-1, r)
    | _ => (1, cs)
  if ds ≠ [] ∧ ds.all Char.isDigit then some (sign * (digitsVal ds : ℤ)) else none

/-- Python float(x) on a decoded JSON value: numbers are returned as is,
booleans coerce to 0 or 1, strings are parsed (ValueError on failure),
None, lists and dicts raise TypeError. -/
def pyFloat : JValue → Except PyErr Dec
  | .num q => .ok q
  | .bool b => .ok (if b then 1 else 0)
  | .str s =>
    match parseFloat s with
    | some q => .ok q
    | none => .error .valueError
  | _ => .error .typeError

/-- Rendering of a decimal for Python str() of a JSON number; integral
values render without a fractional part (an approximation of float repr for
non-integral values, which no code path here depends on). -/
def decStr (q : Dec) : String :=
  if q.exp = 0 then toString q.man else toString q.man ++ "e-" ++ toString q.exp

/-- Python str(x) on a decoded JSON value.  Only the string case is exercised
by the routes; container rendering is abbreviated. -/
def pyStr : JValue → String
  | .null => "None"
  | .bool b => if b then "True" else "False"
  | .num q => decStr q
  | .str s => s
  | .arr _ => "[...]"
  | .obj _ => "\x7b...\x7d"

/-- Fixed UTC offset of ZoneInfo Asia/Kolkata in seconds (+05:30), constant
over the epoch range the ingestion code handles. -/
def istOffsetSeconds : ℤ := 19800

/-- UTC offset the host would apply when astimezone localizes a naive
datetime; environment-dependent and unexercised by the payloads considered
here, modelled as the deployment zone. -/
def localTzOffsetSeconds : ℤ := 19800

/-- Days since the epoch 1970-01-01 of a proleptic Gregorian civil date
(Hinnant's algorithm; divisions are taken on nonnegative operands). -/
def daysFromCivil (y m d : ℤ) : ℤ :=
  let y1 : ℤ := if m ≤ 2 then y - 1 else y
  let era : ℤ := (if 0 ≤ y1 then y1 else y1 - 399) / 400
  let yoe : ℤ := y1 - era * 400
  let doy : ℤ := (153 * (if 2 < m then m - 3 else m + 9) + 2) / 5 + d - 1
  let doe : ℤ := yoe * 365 + yoe / 4 - yoe / 100 + doy
  era * 146097 + doe - 719468

/-- Civil date (year, month, day) of a days-since-epoch count (inverse of
daysFromCivil). -/
def civilFromDays (z0 : ℤ) : ℤ × ℤ × ℤ :=
  let z : ℤ := z0 + 719468
  let era : ℤ := (if 0 ≤ z then z else z - 146096) / 146097
  let doe : ℤ := z - era * 146097
  let yoe : ℤ := (doe - doe / 1460 + doe / 36524 - doe / 146096) / 365
  let y : ℤ := yoe + era * 400
  let doy : ℤ := doe - (365 * yoe + yoe / 4 - yoe / 100)
  let mp : ℤ := (5 * doy + 2) / 153
  let d : ℤ := doy - (153 * mp + 2) / 5 + 1
  let m : ℤ := if mp < 10 then mp + 3 else mp - 9
  (if m ≤ 2 then y + 1 else y, m, d)

/-- Timezone-aware Python datetime, as an exact instant (seconds since the
Unix epoch, UTC) together with the attached zone offset in seconds. -/
structure AwareDatetime where
  epochSeconds : Dec
  tzOffsetSeconds : ℤ
deriving DecidableEq

/-- Civil date and time of day, used to state what an aware datetime
displays as in its zone. -/
structure CivilTime where
  year : ℤ
  month : ℤ
  day : ℤ
  hour : ℤ
  minute : ℤ
  second : Dec
deriving DecidableEq

/-- Instant (epoch seconds, UTC) of a civil date-time carrying an explicit
UTC offset. -/
def epochSecondsOfCivil (y mo d h mi : ℤ) (s : Dec) (offsetSeconds : ℤ) : Dec :=
  Dec.add ((daysFromCivil y mo d * 86400 + h * 3600 + mi * 60 - offsetSeconds : ℤ) : Dec) s

/-- Civil date-time an aware datetime displays as in its own zone. -/
def civilOf (t : AwareDatetime) : CivilTime :=
  let shifted : Dec := t.epochSeconds.add ((t.tzOffsetSeconds : ℤ) : Dec)
  let days : ℤ := shifted.fdivBy 86400
  let sod : Dec := shifted.sub ((days * 86400 : ℤ) : Dec)
  let h : ℤ := sod.fdivBy 3600
  let rem : Dec := sod.sub ((h * 3600 : ℤ) : Dec)
  let mi : ℤ := rem.fdivBy 60
  let (y, mo, d) := civilFromDays days
  ⟨y, mo, d, h, mi, rem.sub ((mi * 60 : ℤ) : Dec)⟩

/-- Python datetime.fromtimestamp(sec, ZoneInfo Asia/Kolkata): the exact
instant, displayed at the +05:30 offset. -/
def fromtimestampIst (sec : Dec) : AwareDatetime :=
  ⟨sec, istOffsetSeconds⟩

/-- Whether y is a Gregorian leap year. -/
def isLeapYear (y : ℤ) : Bool :=
  (y % 4 = 0 ∧ y % 100 ≠ 0) ∨ y % 400 = 0

/-- Number of days in a month. -/
def daysInMonth (y m : ℤ) : ℤ :=
  if m = 2 then (if isLeapYear y then 29 else 28)
  else if m = 4 ∨ m = 6 ∨ m = 9 ∨ m = 11 then 30
  else 31

/-- Result of datetime.fromisoformat: a civil date-time plus an optional
explicit UTC offset (absent for a naive datetime). -/
structure IsoDatetime where
  year : ℤ
  month : ℤ
  day : ℤ
  hour : ℤ
  minute : ℤ
  second : Dec
  offsetSeconds : Option ℤ
deriving DecidableEq

/-- Offset suffix of an ISO time string: sign, two hour digits, a colon and
two minute digits, as produced by the replace of Z with +00:00. -/
def parseIsoOffset (sign : ℤ) (cs : List Char) : Option ℤ :=
  match cs with
  | [h1, h2, ':', m1, m2] =>
    if [h1, h2, m1, m2].all Char.isDigit then
      let hh := (digitsVal [h1, h2] : ℤ)
      let mm := (digitsVal [m1, m2] : ℤ)
      if hh < 24 ∧ mm < 60 then some (sign * (hh * 3600 + mm * 60)) else none
    else none
  | _ => none

/-- Fractional-second digits (one to six) of an ISO time string. -/
def parseIsoFraction (cs : List Char) : Option Dec :=
  if cs ≠ [] ∧ cs.length ≤ 6 ∧ cs.all Char.isDigit then
    some (canonDec (digitsVal cs : ℤ) cs.length)
  else none

/-- Second field of an ISO time string together with its optional fraction
and optional offset suffix. -/
def parseIsoSeconds (cs : List Char) : Option (Dec × Option ℤ) :=
  match cs with
  | s1 :: s2 :: rest =>
    if [s1, s2].all Char.isDigit ∧ (digitsVal [s1, s2] : ℤ) < 60 then
      let sec : Dec := canonDec (digitsVal [s1, s2] : ℤ) 0
      match rest with
      | [] => some (sec, none)
      | '+' :: off => (parseIsoOffset 1 off).map fun o => (sec, some o)
      | '-' :: off => (parseIsoOffset (-1) off).map fun o => (sec, some o)
      | '.' :: more =>
        let (frac, off?) := splitAtChar (fun c => c = '+' ∨ c = '-') more
        match parseIsoFraction frac with
        | none => none
        | some f =>
          match off? with
          | none => some (sec.add f, none)
          | some off =>
            let sign : ℤ := if more.contains '-' then -1 else 1
            (parseIsoOffset sign off).map fun o => (sec.add f, some o)
      | _ => none
    else none
  | _ => none

/-- Time-of-day part of an ISO string: HH:MM, optionally :SS with fraction,
optionally a UTC offset suffix. -/
def parseIsoTime (cs : List Char) : Option (ℤ × ℤ × Dec × Option ℤ) :=
  match cs with
  | h1 :: h2 :: ':' :: m1 :: m2 :: rest =>
    if [h1, h2, m1, m2].all Char.isDigit then
      let hh := (digitsVal [h1, h2] : ℤ)
      let mm := (digitsVal [m1, m2] : ℤ)
      if hh < 24 ∧ mm < 60 then
        match rest with
        | [] => some (hh, mm, 0, none)
        | '+' :: off => (parseIsoOffset 1 off).map fun o => (hh, mm, 0, some o)
        | '-' :: off => (parseIsoOffset (-1) off).map fun o => (hh, mm, 0, some o)
        | ':' :: secs => (parseIsoSeconds secs).map fun (s, o) => (hh, mm, s, o)
        | _ => none
      else none
    else none
  | _ => none

/-- Python str.replace("Z", "+00:00"): every occurrence of the character Z
is replaced by an explicit UTC offset marker. -/
def replaceZ : List Char → List Char
  | [] => []
  | c :: rest => (if c = 'Z' then ['+', '0', '0', ':', '0', '0'] else [c]) ++ replaceZ rest

/-- Python datetime.fromisoformat on the dashed date form YYYY-MM-DD,
optionally followed by a separator and a time of day with optional offset;
none models the ValueError raised on any other shape. -/
def fromisoformat (cs : List Char) : Option IsoDatetime :=
  match cs with
  | y1 :: y2 :: y3 :: y4 :: '-' :: m1 :: m2 :: '-' :: d1 :: d2 :: rest =>
    if [y1, y2, y3, y4, m1, m2, d1, d2].all Char.isDigit then
      let y := (digitsVal [y1, y2, y3, y4] : ℤ)
      let mo := (digitsVal [m1, m2] : ℤ)
      let d := (digitsVal [d1, d2] : ℤ)
      if 1 ≤ y ∧ 1 ≤ mo ∧ mo ≤ 12 ∧ 1 ≤ d ∧ d ≤ daysInMonth y mo then
        match rest with
        | [] => some ⟨y, mo, d, 0, 0, 0, none⟩
        | sep :: t =>
          if sep = 'T' ∨ sep = ' ' then
            (parseIsoTime t).map fun (h, mi, sec, off) => ⟨y, mo, d, h, mi, sec, off⟩
          else none
      else none
    else none
  | _ => none

/-- Python aware_or_naive.astimezone(ZoneInfo Asia/Kolkata): an aware input
keeps its instant; a naive input is first localized at the host offset. -/
def astimezoneIst (dt : IsoDatetime) : AwareDatetime :=
  let off := dt.offsetSeconds.getD localTzOffsetSeconds
  ⟨epochSecondsOfCivil dt.year dt.month dt.day dt.hour dt.minute dt.second off,
   istOffsetSeconds⟩

/-- Result of the heart-rate per-sample helper: a parsed pair, None (the
soft-skip marker), or an exception escaping the helper (only AttributeError
can, since ValueError and TypeError are caught inside). -/
inductive SampleResult where
  | ok : AwareDatetime → Dec → SampleResult
  | invalid : SampleResult
  | raise : PyErr → SampleResult
deriving DecidableEq

/-- Embedding of _parse_and_validate_sample (src/uploader/views.py, lines
11-37): read ts and bpm via dict.get, soft-skip when either is None, coerce
both with float(), convert the millisecond timestamp to an IST datetime;
float() failures (ValueError / TypeError) are caught and soft-skipped; a
non-mapping sample has no .get and raises AttributeError out of the
helper. -/
def parseAndValidateSample (sample : JValue) : SampleResult :=
  match sample with
  | .obj fields =>
    let timestamp_ms := getKey fields "ts"
    let bpm := getKey fields "bpm"
    if timestamp_ms.isNull || bpm.isNull then .invalid
    else
      match pyFloat timestamp_ms, pyFloat bpm with
      | .ok t, .ok b => .ok (fromtimestampIst (t.divPow10 3)) b
      | _, _ => .invalid
  | _ => .raise .attributeError

/-- Result of the emotion per-sample helper _parse_and_validate_emotion_sample. -/
inductive EmotionSampleResult where
  | ok : AwareDatetime → Dec → Dec → EmotionSampleResult
  | invalid : EmotionSampleResult
  | raise : PyErr → EmotionSampleResult
deriving DecidableEq

/-- Embedding of _parse_and_validate_emotion_sample (src/uploader/views.py,
lines 40-72): read ts, valence and arousal via dict.get, soft-skip when any
is None, coerce all three with float(), soft-skip when valence or arousal
falls outside [0, 5], convert the millisecond timestamp to an IST
datetime. -/
def parseAndValidateEmotionSample (sample : JValue) : EmotionSampleResult :=
  match sample with
  | .obj fields =>
    let timestamp_ms := getKey fields "ts"
    let valence := getKey fields "valence"
    let arousal := getKey fields "arousal"
    if timestamp_ms.isNull || valence.isNull || arousal.isNull then .invalid
    else
      match pyFloat timestamp_ms, pyFloat valence, pyFloat arousal with
      | .ok t, .ok v, .ok a =>
        if ¬(0 ≤ v ∧ v ≤ 5) ∨ ¬(0 ≤ a ∧ a ≤ 5) then .invalid
        else .ok (fromtimestampIst (t.divPow10 3)) v a
      | _, _, _ => .invalid
  | _ => .raise .attributeError

/-- Persisted heart-rate record (the UploadedJSON model as used by
upload_json: userId, timestamp, hr); ids are assigned sequentially by the
store in insertion order. -/
structure HeartRateRecord where
  id : ℕ
  userId : ℤ
  timestamp : AwareDatetime
  hr : Dec
deriving DecidableEq

/-- Persisted EmotionData record (src/uploader/models.py, lines 20-45); the
route never passes its type tag to create, so the model default periodic
applies. -/
structure EmotionRecord where
  id : ℕ
  userId : String
  timestamp : AwareDatetime
  valence : Dec
  arousal : Dec
  type : String
deriving DecidableEq

/-- JsonResponse outcomes of upload_json: a 400 with an error message, a
201 carrying message, opportune flag, records_created and record_ids, or a
500 from the generic handler. -/
inductive HrResponse where
  | badRequest : String → HrResponse
  | created : String → Bool → ℕ → List ℕ → HrResponse
  | serverError : String → HrResponse
deriving DecidableEq

/-- Embedding of the per-sample loop of upload_json (lines 106-115): each
sample is parsed; a parsed sample is persisted (id = store size + 1) and
its id collected; a None result is skipped; an uncaught exception stops the
loop, leaving the records created so far committed (no transaction spans
the batch). -/
def processSamples (userid : ℤ) (samples : List JValue) (db : List HeartRateRecord) :
    List HeartRateRecord × List ℕ × Option PyErr :=
  match samples with
  | [] => (db, [], none)
  | s :: rest =>
    match parseAndValidateSample s with
    | .raise e => (db, [], some e)
    | .invalid => processSamples userid rest db
    | .ok ts bpm =>
      let r : HeartRateRecord := ⟨db.length + 1, userid, ts, bpm⟩
      let res := processSamples userid rest (db ++ [r])
      (res.1, r.id :: res.2.1, res.2.2)

/-- Resolution of int(request.POST.get("userid", 999)): the integer default
when the form field is absent, otherwise int() on the submitted string; a
parse failure raises ValueError, caught only by the generic 500 handler. -/
def useridOrDefault (useridField : Option String) : Except PyErr ℤ :=
  match useridField with
  | none => .ok 999
  | some s =>
    match parseInt s with
    | some n => .ok n
    | none => .error .valueError

/-- Embedding of upload_json (src/uploader/views.py, lines 76-139) from the
point where the uploaded file is decoded: none models a JSONDecodeError
(400); the decoded value must be a dict whose type field equals the literal
heart_rate_batch (else 400); data.get("samples", []) must be a list (a
missing key defaults to an empty list; an explicit null or any non-list is
a 400); the userid form field is coerced with int(); then the per-sample
loop runs and a 201 reports the count and ids of the records created.  Any
exception the loop or int() raises reaches the generic handler and yields
a 500.  Returns the response together with the store contents. -/
def upload_json (data? : Option JValue) (useridField : Option String)
    (db : List HeartRateRecord) : HrResponse × List HeartRateRecord :=
  match data? with
  | none => (.badRequest "Invalid JSON file. Could not decode.", db)
  | some data =>
    match data with
    | .obj fields =>
      match getKey fields "type" with
      | .str tag =>
        if tag = "heart_rate_batch" then
          match (fields.lookup "samples").getD (.arr []) with
          | .arr samples =>
            match useridOrDefault useridField with
            | .error _ =>
              (.serverError "An unexpected server error occurred: invalid literal for int()", db)
            | .ok userid =>
              let res := processSamples userid samples db
              match res.2.2 with
              | some _ =>
                (.serverError "An unexpected server error occurred: object has no attribute get",
                 res.1)
              | none =>
                (.created ("Successfully processed " ++ toString res.2.1.length ++ " records.")
                  true res.2.1.length res.2.1, res.1)
          | _ => (.badRequest "Invalid samples format. It must be a list.", db)
        else (.badRequest "Invalid JSON format or type.", db)
      | _ => (.badRequest "Invalid JSON format or type.", db)
    | _ => (.badRequest "Invalid JSON format or type.", db)

/-- JsonResponse outcomes of upload_emotion_json: a 400 with an error
message, a 201 carrying message, opportune flag, record_id and the echoed
processed data (userid, normalized timestamp, valence, arousal), or a 500
from the generic handler. -/
inductive EmotionResponse where
  | badRequest : String → EmotionResponse
  | created : String → Bool → ℕ → String × AwareDatetime × Dec × Dec → EmotionResponse
  | serverError : String → EmotionResponse
deriving DecidableEq

/-- Embedding of upload_emotion_json (src/uploader/views.py, lines 143-249)
from the point where the request body is decoded: none models a
JSONDecodeError (400); a non-dict body fails on .get with AttributeError,
reaching the generic handler (500).  The required-field check is
truthiness-based for userid and timestamp and None-based for valence and
arousal; userid is coerced with str() and valence / arousal with float()
(a ValueError is caught by the ValueError handler as a 400, a TypeError
only by the generic handler as a 500); valence and arousal must lie in
[0.0, 5.0] (else 400); the timestamp must be a string (else 400), has any
Z replaced by +00:00, is parsed with fromisoformat (ValueError gives a
400) and converted to IST; the record is then persisted (id = store size
+ 1) and echoed.  Returns the response together with the store contents. -/
def upload_emotion_json (body? : Option JValue) (db : List EmotionRecord) :
    EmotionResponse × List EmotionRecord :=
  match body? with
  | none => (.badRequest "Invalid JSON data. Could not decode.", db)
  | some data =>
    match data with
    | .obj fields =>
      let userid := getKey fields "userid"
      let timestamp_str := getKey fields "timestamp"
      let valence := getKey fields "valence"
      let arousal := getKey fields "arousal"
      if ¬(truthy userid && truthy timestamp_str
            && !valence.isNull && !arousal.isNull) then
        (.badRequest "Missing required fields. Need: userid, timestamp, valence, arousal", db)
      else
        let useridS := pyStr userid
        match pyFloat valence, pyFloat arousal with
        | .error .valueError, _ =>
          (.badRequest "Data validation error: could not convert string to float", db)
        | .error _, _ =>
          (.serverError "An unexpected server error occurred: float() argument", db)
        | .ok _, .error .valueError =>
          (.badRequest "Data validation error: could not convert string to float", db)
        | .ok _, .error _ =>
          (.serverError "An unexpected server error occurred: float() argument", db)
        | .ok v, .ok a =>
          if ¬(0 ≤ v ∧ v ≤ 5) ∨ ¬(0 ≤ a ∧ a ≤ 5) then
            (.badRequest "Valence and arousal values must be between 0.0 and 5.0", db)
          else
            match timestamp_str with
            | .str s =>
              match fromisoformat (replaceZ s.toList) with
              | none =>
                (.badRequest
                  "Invalid timestamp format. Use ISO format (e.g., 2025-10-21T11:15:00Z)", db)
              | some dt =>
                let timestamp := astimezoneIst dt
                let r : EmotionRecord := ⟨db.length + 1, useridS, timestamp, v, a, "periodic"⟩
                (.created "Successfully processed emotion data." true r.id
                  (useridS, timestamp, v, a), db ++ [r])
            | _ =>
              (.badRequest "Timestamp must be in ISO format (e.g., 2025-10-21T11:15:00Z)", db)
    | _ =>
      (.serverError "An unexpected server error occurred: object has no attribute get", db)

/-- Whether the heart-rate per-sample helper accepts a sample: it is a
mapping with non-null ts and bpm whose values float() coerces. -/
def sampleOk (s : JValue) : Bool :=
  match parseAndValidateSample s with
  | .ok _ _ => true
  | _ => false

theorem parseAndValidateSample_obj_ne_raise (fs : List (String × JValue)) (e : PyErr) :
    parseAndValidateSample (.obj fs) ≠ .raise e := by
  simp only [parseAndValidateSample]
  split
  · simp
  · split <;> simp

theorem processSamples_shape (userid : ℤ) (l : List JValue) (db : List HeartRateRecord) :
    ∃ new, (processSamples userid l db).1 = db ++ new ∧
      (processSamples userid l db).2.1 = new.map (·.id) := by
  induction l generalizing db with
  | nil => exact ⟨[], by simp [processSamples]⟩
  | cons s rest ih =>
    cases h : parseAndValidateSample s with
    | raise e => exact ⟨[], by simp [processSamples, h]⟩
    | invalid =>
      obtain ⟨new, h1, h2⟩ := ih db
      exact ⟨new, by simp [processSamples, h, h1, h2]⟩
    | ok ts bpm =>
      obtain ⟨new, h1, h2⟩ := ih (db ++ [⟨db.length + 1, userid, ts, bpm⟩])
      refine ⟨⟨db.length + 1, userid, ts, bpm⟩ :: new, ?_, ?_⟩
      · simp [processSamples, h, h1]
      · simp [processSamples, h, h2]

theorem processSamples_ids_le (userid : ℤ) (l : List JValue) (db : List HeartRateRecord) :
    (processSamples userid l db).2.1.length ≤ l.length := by
  induction l generalizing db with
  | nil => simp [processSamples]
  | cons s rest ih =>
    cases h : parseAndValidateSample s with
    | raise e => simp [processSamples, h]
    | invalid =>
      have h1 : (processSamples userid (s :: rest) db).2.1.length
          = (processSamples userid rest db).2.1.length := by
        simp [processSamples, h]
      rw [h1]
      exact le_trans (ih db) (by simp)
    | ok ts bpm =>
      have := ih (db ++ [⟨db.length + 1, userid, ts, bpm⟩])
      simpa [processSamples, h, Nat.succ_le_succ_iff] using this

theorem processSamples_count (userid : ℤ) (l : List JValue) (db : List HeartRateRecord)
    (h : (processSamples userid l db).2.2 = none) :
    (processSamples userid l db).2.1.length = l.countP sampleOk := by
  induction l generalizing db with
  | nil => simp [processSamples]
  | cons s rest ih =>
    cases hs : parseAndValidateSample s with
    | raise e => simp [processSamples, hs] at h
    | invalid =>
      have h1 : (processSamples userid rest db).2.2 = none := by
        simpa [processSamples, hs] using h
      simp [processSamples, hs, ih db h1, List.countP_cons, sampleOk]
    | ok ts bpm =>
      have h1 : (processSamples userid rest (db ++ [⟨db.length + 1, userid, ts, bpm⟩])).2.2
          = none := by simpa [processSamples, hs] using h
      simp [processSamples, hs, ih _ h1, List.countP_cons, sampleOk]

theorem processSamples_err_none_of_obj (userid : ℤ) (l : List JValue)
    (db : List HeartRateRecord) (hobj : ∀ s ∈ l, ∃ fs, s = JValue.obj fs) :
    (processSamples userid l db).2.2 = none := by
  induction l generalizing db with
  | nil => simp [processSamples]
  | cons s rest ih =>
    obtain ⟨fs, rfl⟩ := hobj s (by simp)
    have hrest : ∀ s ∈ rest, ∃ fs, s = JValue.obj fs := fun s hs => hobj s (by simp [hs])
    cases hs : parseAndValidateSample (.obj fs) with
    | raise e => exact absurd hs (parseAndValidateSample_obj_ne_raise fs e)
    | invalid => simpa [processSamples, hs] using ih db hrest
    | ok ts bpm => simpa [processSamples, hs] using ih _ hrest

theorem upload_json_created (data? : Option JValue) (uf : Option String)
    (db db' : List HeartRateRecord) (msg : String) (op : Bool) (n : ℕ) (ids : List ℕ)
    (hresp : upload_json data? uf db = (.created msg op n ids, db')) :
    ∃ fields samples userid,
      data? = some (.obj fields) ∧
      (fields.lookup "samples").getD (.arr []) = .arr samples ∧
      useridOrDefault uf = .ok userid ∧
      (processSamples userid samples db).2.2 = none ∧
      n = (processSamples userid samples db).2.1.length ∧
      ids = (processSamples userid samples db).2.1 ∧
      db' = (processSamples userid samples db).1 := by
  cases data? with
  | none => simp [upload_json] at hresp
  | some data =>
    cases data with
    | obj fields =>
      refine ⟨fields, ?_⟩
      simp only [upload_json] at hresp
      split at hresp
      · next tag heq =>
        split at hresp
        · next htag =>
          split at hresp
          · next samples1 heq1 =>
            split at hresp
            · next e heq2 => simp at hresp
            · next userid heq2 =>
              split at hresp
              · next e heq3 => simp at hresp
              · next heq3 =>
                simp only [Prod.mk.injEq, HrResponse.created.injEq] at hresp
                obtain ⟨⟨hmsg, hop, hn, hids⟩, hdb⟩ := hresp
                exact ⟨samples1, userid, rfl, heq1, heq2, heq3, hn.symm, hids.symm, hdb.symm⟩
          · next heq1 => simp at hresp
        · simp at hresp
      · simp at hresp
    | null => simp [upload_json] at hresp
    | bool b => simp [upload_json] at hresp
    | num q => simp [upload_json] at hresp
    | str s => simp [upload_json] at hresp
    | arr l => simp [upload_json] at hresp

/-- C6: a heart-rate batch upload whose decoded JSON object has a type
field different from the literal heart_rate_batch is rejected with a
400-equivalent outcome and creates zero records (the store is unchanged),
whatever the samples field holds. -/
theorem hr_wrong_type_tag_rejected (fields : List (String × JValue)) (uf : Option String)
    (db : List HeartRateRecord)
    (h : ∀ tag, getKey fields "type" = .str tag → tag ≠ "heart_rate_batch") :
    upload_json (some (.obj fields)) uf db = (.badRequest "Invalid JSON format or type.", db) := by
  simp only [upload_json]
  split
  · next tag heq => rw [if_neg (h tag heq)]
  · rfl

/-- Witness for hr_wrong_type_tag_rejected: a health_data_batch tag with an
otherwise valid sample list is rejected and nothing is stored. -/
theorem hr_wrong_type_tag_rejected_witness :
    upload_json (some (.obj [("type", .str "health_data_batch"),
      ("samples", .arr [.obj [("ts", .num ⟨0, 0⟩), ("bpm", .num ⟨70, 0⟩)]])])) none [] =
      (.badRequest "Invalid JSON format or type.", []) :=
  hr_wrong_type_tag_rejected _ none []
    (fun tag heq => by injection heq with h; subst h; decide)

/-- C10: every 201 heart-rate batch response reports records_created equal
to the length of record_ids, and record_ids is exactly the list of ids of
the records this request appended to the store, in creation order. -/
theorem hr_record_ids_exact (data? : Option JValue) (uf : Option String)
    (db db' : List HeartRateRecord) (msg : String) (op : Bool) (n : ℕ) (ids : List ℕ)
    (hresp : upload_json data? uf db = (.created msg op n ids, db')) :
    n = ids.length ∧ ∃ new, db' = db ++ new ∧ ids = new.map (·.id) := by
  obtain ⟨fields, samples, userid, -, -, -, -, hn, hids, hdb⟩ :=
    upload_json_created data? uf db db' msg op n ids hresp
  obtain ⟨new, h1, h2⟩ := processSamples_shape userid samples db
  exact ⟨by rw [hn, hids], new, by rw [hdb, h1], by rw [hids, h2]⟩

/-- Witness for hr_record_ids_exact: a two-sample batch with one soft-skip
creates one record with id 1 and reports it. -/
theorem hr_record_ids_exact_witness :
    (1 : ℕ) = [1].length ∧ ∃ new, [(⟨1, 999, ⟨0, 19800⟩, ⟨70, 0⟩⟩ : HeartRateRecord)]
      = [] ++ new ∧ [1] = new.map (·.id) :=
  hr_record_ids_exact (some (.obj [("type", .str "heart_rate_batch"),
      ("samples", .arr [.obj [("ts", .num ⟨0, 0⟩), ("bpm", .num ⟨70, 0⟩)],
        .obj [("ts", .num ⟨0, 0⟩)]])])) none []
    [⟨1, 999, ⟨0, 19800⟩, ⟨70, 0⟩⟩] "Successfully processed 1 records." true 1 [1] (by decide)

/-- Counterexample to C2 as stated: a valid-envelope batch whose single
sample carries its reading under the key value (non-null, numeric) with a
non-null ts still yields records_created = 0, not 1, because the code reads
only the key bpm. -/
theorem hr_value_key_equality_counterexample :
    (upload_json (some (.obj [("type", .str "heart_rate_batch"),
        ("samples", .arr [.obj [("ts", .num ⟨0, 0⟩), ("value", .num ⟨70, 0⟩)]])])) none []).1 =
      .created "Successfully processed 0 records." true 0 [] ∧
    getKey [("ts", .num ⟨0, 0⟩), ("value", .num ⟨70, 0⟩)] "ts" = .num ⟨0, 0⟩ ∧
    getKey [("ts", .num ⟨0, 0⟩), ("value", .num ⟨70, 0⟩)] "value" = .num ⟨70, 0⟩ := by
  refine ⟨by decide, rfl, rfl⟩

/-- C2 (amended): for every heart-rate batch whose envelope is valid and
whose response is a 201, records_created is at most the number of samples,
with equality exactly when every sample is a mapping whose ts and bpm keys
are non-null and float()-coercible (the reading is taken from bpm only,
never from value). -/
theorem hr_records_created_le_iff (fields : List (String × JValue)) (uf : Option String)
    (db db' : List HeartRateRecord) (msg : String) (op : Bool) (n : ℕ) (ids : List ℕ)
    (samples : List JValue)
    (hsamples : (fields.lookup "samples").getD (.arr []) = .arr samples)
    (hresp : upload_json (some (.obj fields)) uf db = (.created msg op n ids, db')) :
    n ≤ samples.length ∧ (n = samples.length ↔ ∀ s ∈ samples, sampleOk s = true) := by
  obtain ⟨fields1, samples1, userid, heqd, hs1, huid, herr, hn, hids, hdb⟩ :=
    upload_json_created _ uf db db' msg op n ids hresp
  injection heqd with h1
  injection h1 with h2
  subst h2
  rw [hsamples] at hs1
  injection hs1 with h3
  subst h3
  constructor
  · rw [hn]; exact processSamples_ids_le userid samples db
  · rw [hn, processSamples_count userid samples db herr]
    exact List.countP_eq_length

/-- Witness for hr_records_created_le_iff: a two-sample batch in which the
second sample lacks bpm creates one record, and the iff correctly fails on
the skipped sample. -/
theorem hr_records_created_le_iff_witness :
    (1 : ℕ) ≤ ([JValue.obj [("ts", .num ⟨0, 0⟩), ("bpm", .num ⟨70, 0⟩)],
      JValue.obj [("ts", .num ⟨0, 0⟩), ("value", .num ⟨70, 0⟩)]] : List JValue).length ∧
    ((1 : ℕ) = ([JValue.obj [("ts", .num ⟨0, 0⟩), ("bpm", .num ⟨70, 0⟩)],
      JValue.obj [("ts", .num ⟨0, 0⟩), ("value", .num ⟨70, 0⟩)]] : List JValue).length ↔
      ∀ s ∈ ([JValue.obj [("ts", .num ⟨0, 0⟩), ("bpm", .num ⟨70, 0⟩)],
        JValue.obj [("ts", .num ⟨0, 0⟩), ("value", .num ⟨70, 0⟩)]] : List JValue),
        sampleOk s = true) :=
  hr_records_created_le_iff [("type", .str "heart_rate_batch"),
      ("samples", .arr [.obj [("ts", .num ⟨0, 0⟩), ("bpm", .num ⟨70, 0⟩)],
        .obj [("ts", .num ⟨0, 0⟩), ("value", .num ⟨70, 0⟩)]])] none
    [] [⟨1, 999, ⟨0, 19800⟩, ⟨70, 0⟩⟩] "Successfully processed 1 records." true 1 [1] _ rfl
    (by decide)

/-- Counterexample to C3 as stated: a valid-envelope batch containing a
non-mapping element (the number 5) between two valid samples does terminate
early with a 500-equivalent outcome (AttributeError from .get reaches the
generic handler): the record before the bad element is persisted, the valid
sample after it is never processed, and no count is reported. -/
theorem hr_nonmapping_sample_aborts_counterexample :
    upload_json (some (.obj [("type", .str "heart_rate_batch"),
        ("samples", .arr [.obj [("ts", .num ⟨0, 0⟩), ("bpm", .num ⟨70, 0⟩)], .num ⟨5, 0⟩,
          .obj [("ts", .num ⟨0, 0⟩), ("bpm", .num ⟨80, 0⟩)]])])) none [] =
      (.serverError "An unexpected server error occurred: object has no attribute get",
       [⟨1, 999, ⟨0, 19800⟩, ⟨70, 0⟩⟩]) := by decide

/-- C3 (amended): for a valid-envelope batch whose samples are all mappings,
per-sample validation failures are soft-skipped and never terminate the
batch or fail the request: the response is a 201 reporting exactly the
number of records actually created (a non-mapping element instead raises
and aborts the request with a 500-equivalent outcome). -/
theorem hr_soft_skip_mapping_samples (fields : List (String × JValue)) (uf : Option String)
    (db : List HeartRateRecord) (samples : List JValue) (userid : ℤ)
    (htag : getKey fields "type" = .str "heart_rate_batch")
    (hsamples : (fields.lookup "samples").getD (.arr []) = .arr samples)
    (huid : useridOrDefault uf = .ok userid)
    (hobj : ∀ s ∈ samples, ∃ fs, s = JValue.obj fs) :
    upload_json (some (.obj fields)) uf db =
      (.created ("Successfully processed " ++ toString (samples.countP sampleOk) ++ " records.")
        true (samples.countP sampleOk) (processSamples userid samples db).2.1,
       (processSamples userid samples db).1) := by
  have herr := processSamples_err_none_of_obj userid samples db hobj
  have hcount := processSamples_count userid samples db herr
  simp only [upload_json, htag, hsamples, huid, herr, hcount]
  exact if_pos trivial

/-- Witness for hr_soft_skip_mapping_samples: a batch with one valid sample
and one mapping sample with a null ts is a 201 counting only the valid
record. -/
theorem hr_soft_skip_mapping_samples_witness :
    upload_json (some (.obj [("type", .str "heart_rate_batch"),
        ("samples", .arr [.obj [("ts", .num ⟨0, 0⟩), ("bpm", .num ⟨70, 0⟩)],
          .obj [("ts", .null)]])])) none [] =
      (.created "Successfully processed 1 records." true 1 [1],
       [⟨1, 999, ⟨0, 19800⟩, ⟨70, 0⟩⟩]) :=
  hr_soft_skip_mapping_samples _ none []
    [.obj [("ts", .num ⟨0, 0⟩), ("bpm", .num ⟨70, 0⟩)], .obj [("ts", .null)]] 999 rfl rfl rfl
    (by
      intro s hs
      simp only [List.mem_cons, List.not_mem_nil, or_false] at hs
      rcases hs with rfl | rfl
      · exact ⟨_, rfl⟩
      · exact ⟨_, rfl⟩)

/-- Counterexample to C4 as stated: a heart-rate batch whose decoded object
has no samples field at all is not rejected: data.get("samples", [])
defaults to an empty list, so the request succeeds with a 201 and zero
records. -/
theorem hr_missing_samples_field_counterexample :
    upload_json (some (.obj [("type", .str "heart_rate_batch")])) none [] =
      (.created "Successfully processed 0 records." true 0 [], []) := by decide

/-- C4 (amended): with a correct type tag, a samples field that is present
but not a list (including an explicit null) fails the whole request with a
400-equivalent outcome and a descriptive error, creating no records; a
missing samples field is instead treated as an empty list and yields a 201
with zero records created. -/
theorem hr_samples_envelope_check :
    (∀ (fields : List (String × JValue)) (uf : Option String) (db : List HeartRateRecord)
      (v : JValue), getKey fields "type" = .str "heart_rate_batch" →
      fields.lookup "samples" = some v → (∀ l, v ≠ JValue.arr l) →
      upload_json (some (.obj fields)) uf db =
        (.badRequest "Invalid samples format. It must be a list.", db))
    ∧ (∀ (fields : List (String × JValue)) (uf : Option String) (db : List HeartRateRecord)
      (userid : ℤ), getKey fields "type" = .str "heart_rate_batch" →
      fields.lookup "samples" = none → useridOrDefault uf = .ok userid →
      upload_json (some (.obj fields)) uf db =
        (.created "Successfully processed 0 records." true 0 [], db)) := by
  constructor
  · intro fields uf db v htag hlookup hnotarr
    simp only [upload_json, htag, hlookup, Option.getD_some]
    cases v with
    | arr l => exact absurd rfl (hnotarr l)
    | null => rfl
    | bool b => rfl
    | num q => rfl
    | str s => rfl
    | obj fs => rfl
  · intro fields uf db userid htag hlookup huid
    simp only [upload_json, htag, hlookup, Option.getD_none, huid]
    rw [if_pos trivial]
    have h0 : processSamples userid [] db = (db, [], none) := rfl
    rw [h0]
    norm_num
    rfl

/-- Witness for hr_samples_envelope_check: a numeric samples field is a 400
with nothing stored; an absent samples field is a 201 with zero records. -/
theorem hr_samples_envelope_check_witness :
    upload_json (some (.obj [("type", .str "heart_rate_batch"),
        ("samples", .num ⟨1, 0⟩)])) none [] =
      (.badRequest "Invalid samples format. It must be a list.", []) ∧
    upload_json (some (.obj [("type", .str "heart_rate_batch"), ("k", .null)])) none [] =
      (.created "Successfully processed 0 records." true 0 [], []) :=
  ⟨hr_samples_envelope_check.1 _ none [] _ rfl rfl (fun _ h => JValue.noConfusion h),
   hr_samples_envelope_check.2 _ none [] 999 rfl rfl rfl⟩

/-- Counterexample to C5 as stated: a sample with a valid epoch-ms ts and a
numeric reading under value (no bpm key) is not accepted: the per-sample
helper soft-skips it and the batch counts zero records. -/
theorem hr_value_key_not_accepted_counterexample :
    parseAndValidateSample (.obj [("ts", .num ⟨0, 0⟩), ("value", .num ⟨72, 0⟩)]) = .invalid ∧
    (upload_json (some (.obj [("type", .str "heart_rate_batch"),
        ("samples", .arr [.obj [("ts", .num ⟨0, 0⟩), ("value", .num ⟨72, 0⟩)]])])) none []).1 =
      .created "Successfully processed 0 records." true 0 [] := by decide

/-- C5 (amended): the numeric reading of a heart-rate sample is read from
the key bpm only: a mapping with non-null numeric ts and bpm is accepted
and parsed, while a mapping whose bpm resolves to None is soft-skipped
regardless of any value key. -/
theorem hr_bpm_key_only :
    (∀ (fields : List (String × JValue)) (t b : Dec), getKey fields "ts" = .num t →
      getKey fields "bpm" = .num b →
      parseAndValidateSample (.obj fields) = .ok (fromtimestampIst (t.divPow10 3)) b)
    ∧ (∀ fields : List (String × JValue), getKey fields "bpm" = .null →
      parseAndValidateSample (.obj fields) = .invalid) := by
  constructor
  · intro fields t b hts hb
    simp [parseAndValidateSample, hts, hb, pyFloat, JValue.isNull]
  · intro fields hb
    simp [parseAndValidateSample, hb, JValue.isNull]

/-- Witness for hr_bpm_key_only: a bpm sample at epoch 0 parses, a
value-keyed sample is soft-skipped. -/
theorem hr_bpm_key_only_witness :
    parseAndValidateSample (.obj [("ts", .num ⟨0, 0⟩), ("bpm", .num ⟨72, 0⟩)]) =
      .ok (fromtimestampIst ((⟨0, 0⟩ : Dec).divPow10 3)) ⟨72, 0⟩ ∧
    parseAndValidateSample (.obj [("ts", .num ⟨0, 0⟩), ("value", .num ⟨72, 0⟩)]) = .invalid :=
  ⟨hr_bpm_key_only.1 _ ⟨0, 0⟩ ⟨72, 0⟩ rfl rfl, hr_bpm_key_only.2 _ rfl⟩

/-- C7: submitting userid u1, timestamp 2025-10-21T11:15:00Z, valence 3.0,
arousal 2.0 succeeds, and the record read back from the store holds valence
3.0, arousal 2.0 and the instant 2025-10-21T16:45:00+05:30. -/
theorem emotion_round_trip :
    upload_emotion_json (some (.obj [("userid", .str "u1"),
        ("timestamp", .str "2025-10-21T11:15:00Z"),
        ("valence", .num ⟨3, 0⟩), ("arousal", .num ⟨2, 0⟩)])) [] =
      (.created "Successfully processed emotion data." true 1
        ("u1", ⟨epochSecondsOfCivil 2025 10 21 16 45 0 istOffsetSeconds, istOffsetSeconds⟩,
         ⟨3, 0⟩, ⟨2, 0⟩),
       [⟨1, "u1", ⟨epochSecondsOfCivil 2025 10 21 16 45 0 istOffsetSeconds, istOffsetSeconds⟩,
         ⟨3, 0⟩, ⟨2, 0⟩, "periodic"⟩]) := by decide

/-- C8: the batch timestamp normalization maps epoch-ms 0 to the aware
instant 0 seconds UTC carried at the +05:30 offset, whose civil display is
1970-01-01 05:30:00: the helper divides the ts by 1000 and interprets it as
a UTC Unix timestamp rendered in the target zone. -/
theorem epoch_ms_zero_normalization :
    parseAndValidateSample (.obj [("ts", .num ⟨0, 0⟩), ("bpm", .num ⟨72, 0⟩)]) =
      .ok (fromtimestampIst ((⟨0, 0⟩ : Dec).divPow10 3)) ⟨72, 0⟩ ∧
    fromtimestampIst ((⟨0, 0⟩ : Dec).divPow10 3) = ⟨0, istOffsetSeconds⟩ ∧
    civilOf ⟨0, istOffsetSeconds⟩ = ⟨1970, 1, 1, 5, 30, 0⟩ ∧
    istOffsetSeconds = 19800 := by decide

/-- Counterexample to C9 as stated: a request whose userid is the string 0
is not rejected as missing; the non-empty string is truthy, so the request
is accepted and a record is created. -/
theorem emotion_userid_string_zero_counterexample :
    upload_emotion_json (some (.obj [("userid", .str "0"),
        ("timestamp", .str "2025-10-21T11:15:00Z"),
        ("valence", .num ⟨1, 0⟩), ("arousal", .num ⟨1, 0⟩)])) [] =
      (.created "Successfully processed emotion data." true 1
        ("0", ⟨epochSecondsOfCivil 2025 10 21 16 45 0 istOffsetSeconds, istOffsetSeconds⟩,
         ⟨1, 0⟩, ⟨1, 0⟩),
       [⟨1, "0", ⟨epochSecondsOfCivil 2025 10 21 16 45 0 istOffsetSeconds, istOffsetSeconds⟩,
         ⟨1, 0⟩, ⟨1, 0⟩, "periodic"⟩]) := by decide

/-- C9 (amended): the required-field check is truthiness-based for userid
and timestamp and null-based for valence and arousal: numeric userid 0 or
numeric timestamp 0 are rejected as missing, the falsy-but-valid cases for
this route; the string userid 0 is a non-empty (truthy) string and passes;
valence 0.0 and arousal 0.0 are not treated as missing. -/
theorem emotion_required_fields_truthiness :
    (upload_emotion_json (some (.obj [("userid", .num ⟨0, 0⟩),
        ("timestamp", .str "2025-10-21T11:15:00Z"),
        ("valence", .num ⟨1, 0⟩), ("arousal", .num ⟨1, 0⟩)])) []).1 =
      .badRequest "Missing required fields. Need: userid, timestamp, valence, arousal" ∧
    (upload_emotion_json (some (.obj [("userid", .str "u1"),
        ("timestamp", .num ⟨0, 0⟩),
        ("valence", .num ⟨1, 0⟩), ("arousal", .num ⟨1, 0⟩)])) []).1 =
      .badRequest "Missing required fields. Need: userid, timestamp, valence, arousal" ∧
    (upload_emotion_json (some (.obj [("userid", .str "0"),
        ("timestamp", .str "2025-10-21T11:15:00Z"),
        ("valence", .num ⟨1, 0⟩), ("arousal", .num ⟨1, 0⟩)])) []).1 ≠
      .badRequest "Missing required fields. Need: userid, timestamp, valence, arousal" ∧
    (upload_emotion_json (some (.obj [("userid", .str "u1"),
        ("timestamp", .str "2025-10-21T11:15:00Z"),
        ("valence", .num ⟨0, 0⟩), ("arousal", .num ⟨0, 0⟩)])) []).1 =
      .created "Successfully processed emotion data." true 1
        ("u1", ⟨epochSecondsOfCivil 2025 10 21 16 45 0 istOffsetSeconds, istOffsetSeconds⟩,
         ⟨0, 0⟩, ⟨0, 0⟩) := by decide

/-- C1: valence and arousal of any record the emotion route adds to the
store lie within [0.0, 5.0]; the emotion per-sample helper only accepts
in-range values; a boundary submission (valence 5.0, arousal 0.0) is a 201,
while valence 5.0001 or arousal -0.0001 is a 400 range rejection. -/
theorem emotion_range_invariant :
    (∀ (body? : Option JValue) (db : List EmotionRecord) (r : EmotionRecord),
      r ∈ (upload_emotion_json body? db).2 → r ∈ db ∨
        ((0 : Dec) ≤ r.valence ∧ r.valence ≤ 5 ∧ (0 : Dec) ≤ r.arousal ∧ r.arousal ≤ 5))
    ∧ (∀ (s : JValue) (ts : AwareDatetime) (v a : Dec),
      parseAndValidateEmotionSample s = .ok ts v a →
        (0 : Dec) ≤ v ∧ v ≤ 5 ∧ (0 : Dec) ≤ a ∧ a ≤ 5)
    ∧ (upload_emotion_json (some (.obj [("userid", .str "u1"),
        ("timestamp", .str "2025-10-21T11:15:00Z"),
        ("valence", .num ⟨5, 0⟩), ("arousal", .num ⟨0, 0⟩)])) []).1 =
      .created "Successfully processed emotion data." true 1
        ("u1", ⟨epochSecondsOfCivil 2025 10 21 16 45 0 istOffsetSeconds, istOffsetSeconds⟩,
         ⟨5, 0⟩, ⟨0, 0⟩)
    ∧ (upload_emotion_json (some (.obj [("userid", .str "u1"),
        ("timestamp", .str "2025-10-21T11:15:00Z"),
        ("valence", .num ⟨50001, 4⟩), ("arousal", .num ⟨0, 0⟩)])) []).1 =
      .badRequest "Valence and arousal values must be between 0.0 and 5.0"
    ∧ (upload_emotion_json (some (.obj [("userid", .str "u1"),
        ("timestamp", .str "2025-10-21T11:15:00Z"),
        ("valence", .num ⟨5, 0⟩), ("arousal", .num ⟨-1, 4⟩)])) []).1 =
      .badRequest "Valence and arousal values must be between 0.0 and 5.0" := by
  refine ⟨?_, ?_, by decide, by decide, by decide⟩
  · intro body? db r hr
    cases body? with
    | none => exact .inl hr
    | some data =>
      cases data with
      | obj fields =>
        simp only [upload_emotion_json] at hr
        split at hr
        · exact .inl hr
        · split at hr
          · exact .inl hr
          · exact .inl hr
          · exact .inl hr
          · exact .inl hr
          · split at hr
            · exact .inl hr
            · next hcond =>
              split at hr
              · split at hr
                · exact .inl hr
                · rw [List.mem_append] at hr
                  rcases hr with h | h
                  · exact .inl h
                  · right
                    rw [List.mem_singleton] at h
                    subst h
                    push_neg at hcond
                    exact ⟨hcond.1.1, hcond.1.2, hcond.2.1, hcond.2.2⟩
              · exact .inl hr
      | null => exact .inl hr
      | bool b => exact .inl hr
      | num q => exact .inl hr
      | str s => exact .inl hr
      | arr l => exact .inl hr
  · intro s ts v a h
    cases s with
    | obj fields =>
      simp only [parseAndValidateEmotionSample] at h
      split at h
      · simp at h
      · split at h
        · split at h
          · simp at h
          · next hcond =>
            injection h with h1 h2 h3
            subst h2
            subst h3
            push_neg at hcond
            exact ⟨hcond.1.1, hcond.1.2, hcond.2.1, hcond.2.2⟩
        all_goals simp at h
    | null => simp [parseAndValidateEmotionSample] at h
    | bool b => simp [parseAndValidateEmotionSample] at h
    | num q => simp [parseAndValidateEmotionSample] at h
    | str s => simp [parseAndValidateEmotionSample] at h
    | arr l => simp [parseAndValidateEmotionSample] at h

/-- Witness for emotion_range_invariant: the record created by the boundary
submission satisfies the range bounds. -/
theorem emotion_range_invariant_witness :
    ((⟨1, "u1", ⟨epochSecondsOfCivil 2025 10 21 16 45 0 istOffsetSeconds, istOffsetSeconds⟩,
        ⟨5, 0⟩, ⟨0, 0⟩, "periodic"⟩ : EmotionRecord) ∈ ([] : List EmotionRecord) ∨
      ((0 : Dec) ≤ (⟨5, 0⟩ : Dec) ∧ (⟨5, 0⟩ : Dec) ≤ 5 ∧
        (0 : Dec) ≤ (⟨0, 0⟩ : Dec) ∧ (⟨0, 0⟩ : Dec) ≤ 5)) :=
  emotion_range_invariant.1 (some (.obj [("userid", .str "u1"),
      ("timestamp", .str "2025-10-21T11:15:00Z"),
      ("valence", .num ⟨5, 0⟩), ("arousal", .num ⟨0, 0⟩)])) [] _ (by decide)

end DataCollServer
